import Mathlib

/-
Verification of the Receptrix appointment-receptionist core against its
design document.  The development is a shallow embedding of the Python
sources `database.py`, `voice_handler.py` and the direct appointment
endpoint of `main.py`.

Embedding conventions:

* Calendar dates (`appointment_date`, `requested_date`) stay opaque
  `String`s: the source only ever compares them for equality in SQL
  filters, and `strptime` validation of well-formed dates is elided.
* Clock times are `Nat` minutes since midnight.  The source stores
  `"HH:MM"` strings and converts with `strptime`/`strftime`, which is a
  bijection on well-formed values; `formatHHMM` below reproduces the
  `strftime("%H:%M")` rendering where a claim talks about the literal
  slot strings.
* Business-hours strings ARE parsed faithfully (character by character,
  mirroring `strptime("%I:%M %p")` and the `split(" - ")`/`strip` calls),
  because the fail-soft behaviour on malformed hour strings is itself a
  claimed property.
* The SQLite tables become lists inside a `DB` record; `AUTOINCREMENT`
  ids become explicit counters.  A SQL `UPDATE ... WHERE` becomes a
  `List.map` guarded by the row test.
* The external language model is a parameter: the extraction outcome and
  the chat outcome of a turn are inputs of `generate_response` (the
  extraction wrapper already converts provider errors into an empty
  extraction, which is the `emptyExtracted` value here).
* Python truthiness tests (`if extracted.get("name"):`,
  `if caller_id:`) are translated exactly: for strings the guard fails
  on `None` and `""`, for integers it fails on `None` and `0`.
-/

namespace Receptrix

/-! ### String utilities (Python `str.lower`, substring test, `strftime`) -/

/-- ASCII lowering, mirroring `str.lower()` on the ASCII text this system
handles. -/
def lowerStr (s : String) : String :=
  String.mk (s.data.map Char.toLower)

/-- Helper for the Python `in` substring test, on character lists. -/
def strContainsAux (needle : List Char) : List Char → Bool
  | [] => List.isPrefixOf needle []
  | c :: t => List.isPrefixOf needle (c :: t) || strContainsAux needle t

/-- Python `needle in haystack` substring containment. -/
def strContains (haystack needle : String) : Bool :=
  strContainsAux needle.data haystack.data

/-- Two-digit zero padding, as in `strftime`. -/
def pad2 (n : Nat) : String :=
  if n < 10 then "0" ++ toString n else toString n

/-- `strftime("%H:%M")` on a time given in minutes since midnight. -/
def formatHHMM (m : Nat) : String :=
  pad2 (m / 60) ++ ":" ++ pad2 (m % 60)

/-! ### `strptime("%I:%M %p")`, used by `get_available_slots`

`strptime` compiles the format into a regex matched case-insensitively
against the whole string: hour `1[0-2]|0[1-9]|[1-9]`, literal `:`,
minute `[0-5]\d|\d`, whitespace run, then `AM`/`PM`.  The recursive
descent below follows that grammar; where the regex could backtrack out
of a longer alternative the shorter one is always followed by a
non-digit token, so greedy matching agrees with the regex. -/

def digitVal (c : Char) : Nat := c.toNat - 48

/-- Hour field `%I`: regex `1[0-2]|0[1-9]|[1-9]`. -/
def parseHour12 : List Char → Option (Nat × List Char)
  | '1' :: c :: rest =>
      if '0' ≤ c ∧ c ≤ '2' then some (10 + digitVal c, rest)
      else some (1, c :: rest)
  | '0' :: c :: rest =>
      if '1' ≤ c ∧ c ≤ '9' then some (digitVal c, rest) else none
  | c :: rest =>
      if '1' ≤ c ∧ c ≤ '9' then some (digitVal c, rest) else none
  | [] => none

/-- Minute field `%M`: regex `[0-5]\d|\d`. -/
def parseMinute : List Char → Option (Nat × List Char)
  | c1 :: c2 :: rest =>
      if ('0' ≤ c1 ∧ c1 ≤ '5') ∧ c2.isDigit then
        some (10 * digitVal c1 + digitVal c2, rest)
      else if c1.isDigit then some (digitVal c1, c2 :: rest)
      else none
  | [c] => if c.isDigit then some (digitVal c, []) else none
  | [] => none

/-- A literal-space in the format matches a nonempty whitespace run. -/
def skipWs : List Char → Option (List Char)
  | c :: rest =>
      if c.isWhitespace then some (rest.dropWhile Char.isWhitespace) else none
  | [] => none

/-- `%p`, case-insensitive; `true` means PM. -/
def parseAmPm : List Char → Option (Bool × List Char)
  | c1 :: c2 :: rest =>
      if (c1 = 'A' ∨ c1 = 'a') ∧ (c2 = 'M' ∨ c2 = 'm') then some (false, rest)
      else if (c1 = 'P' ∨ c1 = 'p') ∧ (c2 = 'M' ∨ c2 = 'm') then some (true, rest)
      else none
  | _ => none

/-- `strptime(s, "%I:%M %p")` reduced to minutes since midnight;
`none` is the `ValueError` path (also raised on trailing junk). -/
def parseTime12 (cs : List Char) : Option Nat := do
  let (h, r1) ← parseHour12 cs
  let r2 ← match r1 with
    | ':' :: r => some r
    | _ => none
  let (m, r3) ← parseMinute r2
  let r4 ← skipWs r3
  let (pm, r5) ← parseAmPm r4
  match r5 with
  | [] =>
      let h24 := if pm then (if h = 12 then 12 else h + 12)
                 else (if h = 12 then 0 else h)
      some (h24 * 60 + m)
  | _ => none

/-- Python `working_hours.split(" - ")`: leftmost-first scan for the
literal three-character separator, specialised to that separator so it
stays structurally recursive. -/
def splitDash : List Char → List Char → List (List Char)
  | ' ' :: '-' :: ' ' :: rest, acc => acc.reverse :: splitDash rest []
  | c :: rest, acc => splitDash rest (c :: acc)
  | [], acc => [acc.reverse]

/-- Python `str.strip()`: drop whitespace at both ends. -/
def trimChars (l : List Char) : List Char :=
  ((l.dropWhile Char.isWhitespace).reverse.dropWhile Char.isWhitespace).reverse

/-- The working-hours header of `get_available_slots`:
`parts = working_hours.split(" - ")`, `strptime` on the stripped first
two parts.  A missing second part (`IndexError`) or a failing
`strptime` (`ValueError`) is the exception caught by the function. -/
def parseWorkingHours (working_hours : String) : Option (Nat × Nat) :=
  let parts := splitDash working_hours.data []
  match parts.get? 0, parts.get? 1 with
  | some p0, some p1 =>
      match parseTime12 (trimChars p0), parseTime12 (trimChars p1) with
      | some start_time, some end_time => some (start_time, end_time)
      | _, _ => none
  | _, _ => none

/-! ### Data model (`models.py`, SQLite tables of `database.py`) -/

/-- `AppointmentStatus` enum of `models.py`. -/
inductive AppointmentStatus where
  | scheduled
  | confirmed
  | cancelled
  | completed
  | no_show
deriving DecidableEq, Repr

/-- A row of the `appointments` table.  `appointment_time` is minutes
since midnight (source: `"HH:MM"` text, see header). -/
structure Appointment where
  id : Nat
  caller_id : Option Nat
  caller_name : String
  caller_phone : String
  service_name : String
  appointment_date : String
  appointment_time : Nat
  duration_minutes : Nat
  status : AppointmentStatus
  notes : Option String
  created_at : Nat
  reminder_sent : Bool
deriving DecidableEq, Repr

/-- A row of the `callers` table. -/
structure Caller where
  id : Nat
  phone_number : String
  name : Option String
  email : Option String
  notes : Option String
  created_at : Nat
  updated_at : Nat
  total_calls : Nat
  total_appointments : Nat
deriving DecidableEq, Repr

/-- `AppointmentCreate` payload of `models.py`. -/
structure AppointmentCreate where
  caller_name : String
  caller_phone : String
  service_name : String
  appointment_date : String
  appointment_time : Nat
  notes : Option String
deriving DecidableEq, Repr

/-- One entry of a conversation `messages` history. -/
structure Msg where
  role : String
  content : String
deriving DecidableEq, Repr

/-- The raw extraction result of `extract_booking_info` (a JSON object in
the source; provider or parse failure yields the empty result).  `time`
follows the minutes convention; the other slots keep their string form. -/
structure Extracted where
  name : Option String
  service : Option String
  date : Option String
  time : Option Nat
  is_confirming : Bool
deriving DecidableEq, Repr

/-- The all-`null` extraction, i.e. the `{}` returned on any extraction
failure (`extracted.get(...)` then yields `None`/`False` for every key). -/
def emptyExtracted : Extracted :=
  { name := none, service := none, date := none, time := none, is_confirming := false }

/-- The in-memory conversation-context dict of `generate_response`. -/
structure ConvContext where
  call_sid : String
  caller_phone : String
  state : String
  caller_name : Option String
  requested_service : Option String
  requested_date : Option String
  requested_time : Option Nat
  messages : List Msg
  extracted_info : Extracted
deriving DecidableEq, Repr

/-- A row of the `conversation_states` table (primary key `call_sid`
kept outside the row). -/
structure ConvRow where
  caller_phone : String
  state : String
  caller_name : Option String
  requested_service : Option String
  requested_date : Option String
  requested_time : Option Nat
  messages : List Msg
  extracted_info : Extracted
  created_at : Nat
  updated_at : Nat
deriving DecidableEq, Repr

/-- The SQLite database: each table as a list, `AUTOINCREMENT` ids as
counters (SQLite row ids start at 1). -/
structure DB where
  callers : List Caller
  appointments : List Appointment
  conversation_states : List (String × ConvRow)
  next_caller_id : Nat
  next_appointment_id : Nat
deriving DecidableEq, Repr

/-- A configured service (`Service` of `models.py`; the source price is a
float that no verified control path reads, kept here as a `Nat`). -/
structure Service where
  name : String
  price : Nat
  duration : Nat
deriving DecidableEq, Repr

/-- The slice of `BusinessConfig` the orchestrator reads on the verified
paths. -/
structure Config where
  services : List Service
deriving Repr

/-! ### Caller operations (`database.py`) -/

/-- `get_or_create_caller`: look up by phone; on a hit bump `total_calls`
and `updated_at`, on a miss insert a fresh row with `total_calls = 1`.
Returns the caller object the source builds plus the updated database. -/
def get_or_create_caller (db : DB) (phone_number : String) (name : Option String)
    (now : Nat) : Caller × DB :=
  match db.callers.find? (fun c => c.phone_number == phone_number) with
  | some row =>
      let callers := db.callers.map (fun c =>
        if c.id = row.id then { c with total_calls := c.total_calls + 1, updated_at := now }
        else c)
      ({ row with total_calls := row.total_calls + 1, updated_at := now },
       { db with callers := callers })
  | none =>
      let caller : Caller :=
        { id := db.next_caller_id, phone_number := phone_number, name := name,
          email := none, notes := none, created_at := now, updated_at := now,
          total_calls := 1, total_appointments := 0 }
      (caller,
       { db with callers := db.callers ++ [caller],
                 next_caller_id := db.next_caller_id + 1 })

/-- `update_caller_name`: set `name` and `updated_at` on every row with
the given phone number (the source also re-reads the row; that return
value is unused by the orchestrator and elided). -/
def update_caller_name (db : DB) (phone_number name : String) (now : Nat) : DB :=
  { db with callers := db.callers.map (fun c =>
      if c.phone_number == phone_number then { c with name := some name, updated_at := now }
      else c) }

/-- `get_caller_by_phone`. -/
def get_caller_by_phone (db : DB) (phone_number : String) : Option Caller :=
  db.callers.find? (fun c => c.phone_number == phone_number)

/-! ### Appointment operations (`database.py`) -/

/-- The row `create_appointment` inserts: the payload fields plus
status scheduled, the fresh rowid and `created_at = now`. -/
def new_appointment (db : DB) (data : AppointmentCreate) (caller_id : Option Nat)
    (duration now : Nat) : Appointment :=
  { id := db.next_appointment_id, caller_id := caller_id,
    caller_name := data.caller_name, caller_phone := data.caller_phone,
    service_name := data.service_name, appointment_date := data.appointment_date,
    appointment_time := data.appointment_time, duration_minutes := duration,
    status := AppointmentStatus.scheduled, notes := data.notes,
    created_at := now, reminder_sent := false }

/-- The `UPDATE callers SET total_appointments = total_appointments + 1,
updated_at = ? WHERE id = ?` statement. -/
def bump_caller_appointments (db : DB) (cid now : Nat) : DB :=
  { db with callers := db.callers.map (fun c =>
      if c.id = cid then
        { c with total_appointments := c.total_appointments + 1, updated_at := now }
      else c) }

/-- `create_appointment`: insert the appointment and, guarded by the
Python truthiness test `if caller_id:` (false for `None` AND for `0`;
real SQLite rowids are never 0), bump the caller counter; one `commit`
covers both statements.  Returns the updated database and the new id. -/
def create_appointment (db : DB) (data : AppointmentCreate) (caller_id : Option Nat)
    (duration now : Nat) : DB × Nat :=
  let apt := new_appointment db data caller_id duration now
  let db2 := { db with appointments := db.appointments ++ [apt],
                       next_appointment_id := db.next_appointment_id + 1 }
  let db3 := match caller_id with
    | some cid => if cid ≠ 0 then bump_caller_appointments db2 cid now else db2
    | none => db2
  (db3, apt.id)

/-- `create_appointment` as the transaction it runs in: both statements
execute against the same uncommitted connection and a single `commit`
publishes them; if the counter `UPDATE` raises, the commit is never
reached and the connection is discarded, rolling the insert back.
`counter_update_raises` injects that failure; `none` is the aborted
transaction (no state published). -/
def create_appointment_txn (db : DB) (data : AppointmentCreate) (caller_id : Option Nat)
    (duration now : Nat) (counter_update_raises : Bool) : Option (DB × Nat) :=
  let apt := new_appointment db data caller_id duration now
  let staged := { db with appointments := db.appointments ++ [apt],
                          next_appointment_id := db.next_appointment_id + 1 }
  match caller_id with
  | some cid =>
      if cid ≠ 0 then
        if counter_update_raises then none
        else some (bump_caller_appointments staged cid now, apt.id)
      else some (staged, apt.id)
  | none => some (staged, apt.id)

/-- `get_appointments_for_date`: `WHERE appointment_date = ? AND status
!= cancelled ORDER BY appointment_time`. -/
def get_appointments_for_date (appts : List Appointment) (date : String) :
    List Appointment :=
  List.insertionSort (fun a b => a.appointment_time ≤ b.appointment_time)
    (appts.filter (fun a =>
      a.appointment_date == date && !(a.status == AppointmentStatus.cancelled)))

/-- `check_time_slot_available`: the requested interval is
`[time, time+duration)`; scan the non-cancelled appointments of the day
and fail on `not (requested_end <= apt_start or requested_start >=
apt_end)`. -/
def check_time_slot_available (appts : List Appointment) (date : String)
    (time duration : Nat) : Bool :=
  (get_appointments_for_date appts date).all (fun apt =>
    time + duration ≤ apt.appointment_time ||
    apt.appointment_time + apt.duration_minutes ≤ time)

/-- The slot-generation loop of `get_available_slots`: `while current +
service_duration <= end_time`, emit `strftime("%H:%M")` of the start
when `check_time_slot_available` accepts it, step 30 minutes.  The
`fuel` argument only bounds the recursion; the wrapper passes
`end_time + 1`, which exceeds the iteration count of every run (one
iteration consumes 30 minutes of the `[start, end]` range). -/
def slotsFrom (appts : List Appointment) (date : String)
    (service_duration end_time : Nat) : Nat → Nat → List String
  | _, 0 => []
  | current, fuel + 1 =>
      if current + service_duration ≤ end_time then
        (if check_time_slot_available appts date current service_duration then
          [formatHHMM current]
         else []) ++
        slotsFrom appts date service_duration end_time (current + 30) fuel
      else []

/-- `get_available_slots`: empty for (case-insensitive) `"Closed"`;
parse the `"open - close"` range, on failure catch the exception and
return the (still empty) accumulator; otherwise run the grid walk. -/
def get_available_slots (appts : List Appointment) (date : String)
    (working_hours : String) (service_duration : Nat) : List String :=
  if lowerStr working_hours = "closed" then []
  else
    match parseWorkingHours working_hours with
    | none => []
    | some (start_time, end_time) =>
        slotsFrom appts date service_duration end_time start_time (end_time + 1)

/-! ### Conversation-state operations (`database.py`) -/

/-- Association-list lookup for the `conversation_states` table. -/
def lookupConv (store : List (String × ConvRow)) (call_sid : String) : Option ConvRow :=
  (store.find? (fun p => p.1 == call_sid)).map (fun p => p.2)

/-- The row written by `save_conversation_state`, given the preserved
creation time. -/
def conv_row_of (ctx : ConvContext) (created_at updated_at : Nat) : ConvRow :=
  { caller_phone := ctx.caller_phone, state := ctx.state,
    caller_name := ctx.caller_name, requested_service := ctx.requested_service,
    requested_date := ctx.requested_date, requested_time := ctx.requested_time,
    messages := ctx.messages, extracted_info := ctx.extracted_info,
    created_at := created_at, updated_at := updated_at }

/-- `save_conversation_state`: `INSERT OR REPLACE` keyed by `call_sid`,
with `created_at = COALESCE((SELECT created_at ... WHERE call_sid = ?),
now)` and `updated_at = now`. -/
def save_conversation_state (store : List (String × ConvRow)) (call_sid : String)
    (ctx : ConvContext) (now : Nat) : List (String × ConvRow) :=
  let created := match lookupConv store call_sid with
    | some row => row.created_at
    | none => now
  (call_sid, conv_row_of ctx created now) :: store.filter (fun p => !(p.1 == call_sid))

/-- `get_conversation_state`: rebuild the context dict from the row (the
returned dict carries no timestamps). -/
def get_conversation_state (db : DB) (call_sid : String) : Option ConvContext :=
  (lookupConv db.conversation_states call_sid).map (fun r =>
    { call_sid := call_sid, caller_phone := r.caller_phone, state := r.state,
      caller_name := r.caller_name, requested_service := r.requested_service,
      requested_date := r.requested_date, requested_time := r.requested_time,
      messages := r.messages, extracted_info := r.extracted_info })

/-! ### Conversation orchestrator (`voice_handler.py`) -/

/-- Python truthiness of an optional string slot: `None` and `""` are
falsy, everything else truthy. -/
def truthyS (o : Option String) : Bool :=
  match o with
  | none => false
  | some s => !(s == "")

/-- The slot merge of `generate_response` (lines 334-342): each of the
four `if extracted.get(...):` guards writes the slot only when the
extracted value is truthy.  (The `time` slot is `Option Nat` under the
minutes convention; every extracted `"HH:MM"` text is a nonempty, hence
truthy, string, so its guard is `isSome`.) -/
def mergeExtracted (ctx : ConvContext) (e : Extracted) : ConvContext :=
  let ctx1 := if truthyS e.name then { ctx with caller_name := e.name } else ctx
  let ctx2 := if truthyS e.service then { ctx1 with requested_service := e.service } else ctx1
  let ctx3 := if truthyS e.date then { ctx2 with requested_date := e.date } else ctx2
  if e.time.isSome then { ctx3 with requested_time := e.time } else ctx3

/-- `_should_finalize_booking`: the four truthiness tests on the merged
context plus `extracted.get("is_confirming", False)`.  The stored
`state` field is not consulted. -/
def should_finalize_booking (ctx : ConvContext) (e : Extracted) : Bool :=
  truthyS ctx.caller_name && truthyS ctx.requested_service &&
  truthyS ctx.requested_date && ctx.requested_time.isSome && e.is_confirming

/-- The case-insensitive first-match service lookup used by
`_attempt_booking` and the `/appointments` endpoint. -/
def find_service (services : List Service) (service_name : String) : Option Service :=
  services.find? (fun s => lowerStr s.name == lowerStr service_name)

/-- `_attempt_booking`: validate the service, re-check the slot, then
insert via `create_appointment` with the caller id looked up by phone.
Every failure (unknown service, occupied slot, or the `KeyError` of a
missing context key, caught by the blanket `except`) leaves the
database untouched and reports `success = False`; the human-readable
message and the alternative-slot list attached to failures carry no
state effect and are elided. -/
def attempt_booking (cfg : Config) (db : DB) (ctx : ConvContext) (now : Nat) :
    DB × Bool :=
  match ctx.requested_service, ctx.requested_date, ctx.requested_time, ctx.caller_name with
  | some service_name, some date, some time, some cname =>
      match find_service cfg.services service_name with
      | none => (db, false)
      | some service =>
          if !(check_time_slot_available db.appointments date time service.duration) then
            (db, false)
          else
            let caller := get_caller_by_phone db ctx.caller_phone
            let data : AppointmentCreate :=
              { caller_name := cname, caller_phone := ctx.caller_phone,
                service_name := service.name, appointment_date := date,
                appointment_time := time, notes := none }
            ((create_appointment db data (caller.map (fun c => c.id))
                service.duration now).1, true)
  | _, _, _, _ => (db, false)

/-- The farewell markers scanned in the caller utterance. -/
def farewell_phrases : List String :=
  ["goodbye", "bye", "thank you", "thanks", "that\x27s all",
   "have a good", "take care", "see you", "nothing else"]

/-- The farewell markers scanned in the generated reply. -/
def ai_farewell_phrases : List String :=
  ["goodbye", "bye", "take care", "have a great"]

/-- `_should_end_call`: both the lowered utterance and the lowered reply
must contain a marker from their respective lists. -/
def should_end_call (user_input ai_response : String) : Bool :=
  let user_lower := lowerStr user_input
  let response_lower := lowerStr ai_response
  (farewell_phrases.any (fun p => strContains user_lower p)) &&
  (ai_farewell_phrases.any (fun p => strContains response_lower p))

/-- The fixed apology returned when the reply-generation provider call
raises. -/
def apologyText : String :=
  "I apologize, I\x27m having a bit of trouble. Could you please repeat that?"

/-- The fresh context dict built when no conversation state is stored. -/
def defaultContext (call_sid caller_phone : String) : ConvContext :=
  { call_sid := call_sid, caller_phone := caller_phone, state := "greeting",
    caller_name := none, requested_service := none, requested_date := none,
    requested_time := none, messages := [], extracted_info := emptyExtracted }

/-- The context at the booking decision point of a turn: stored context
(or fresh), caller name from the caller record when truthy, the caller
utterance appended, and the extraction merged.  All reads are against
the turn-entry database: the single write that precedes them in the
source (`get_or_create_caller`) only bumps `total_calls`/`updated_at`
and so cannot change any value read here. -/
def merged_turn_context (db : DB) (caller_input call_sid caller_phone : String)
    (e : Extracted) : ConvContext :=
  let ctx0 := (get_conversation_state db call_sid).getD (defaultContext call_sid caller_phone)
  let ctx1 := match (get_caller_by_phone db caller_phone).bind (fun c => c.name) with
    | some n => if n == "" then ctx0 else { ctx0 with caller_name := some n }
    | none => ctx0
  let ctx2 := { ctx1 with messages := ctx1.messages ++ [{ role := "user", content := caller_input }] }
  mergeExtracted ctx2 e

/-- `generate_response`, one conversational turn.  The two language-model
round trips are inputs: `extracted` is the (already fail-softened)
extraction outcome and `chat_outcome` the reply-generation outcome.
Prompt composition (`get_system_prompt`, `_build_context_info`) only
shapes the text sent to the model and has no state effect, so it is
elided.  Returns the database, the `VoiceResponse` pair
(text, `should_end_call`), and whether a booking was attempted. -/
def generate_response (cfg : Config) (db : DB)
    (caller_input call_sid caller_phone : String) (extracted : Extracted)
    (chat_outcome : Except Unit String) (now : Nat) :
    DB × (String × Bool) × Bool :=
  let db1 := (get_or_create_caller db caller_phone none now).2
  let db2 := match extracted.name with
    | some n => if n == "" then db1 else update_caller_name db1 caller_phone n now
    | none => db1
  let ctx := merged_turn_context db caller_input call_sid caller_phone extracted
  let should_book := should_finalize_booking ctx extracted
  let db3 := if should_book then (attempt_booking cfg db2 ctx now).1 else db2
  match chat_outcome with
  | Except.ok ai_response =>
      let ctx2 := { ctx with
        messages := ctx.messages ++ [{ role := "assistant", content := ai_response }] }
      let db4 := { db3 with conversation_states :=
        save_conversation_state db3.conversation_states call_sid ctx2 now }
      (db4, (ai_response, should_end_call caller_input ai_response), should_book)
  | Except.error _ =>
      (db3, (apologyText, false), should_book)

/-! ### Direct appointment creation (`main.py`, `POST /appointments`) -/

/-- The `/appointments` endpoint body: service lookup, conflict check,
`get_or_create_caller`, then `create_appointment`.  The two rejection
branches raise `HTTPException` before any write; `none` stands for
those error responses. -/
def create_new_appointment (cfg : Config) (db : DB) (data : AppointmentCreate)
    (now : Nat) : DB × Option Nat :=
  match find_service cfg.services data.service_name with
  | none => (db, none)
  | some service =>
      if !(check_time_slot_available db.appointments data.appointment_date
            data.appointment_time service.duration) then
        (db, none)
      else
        let caller := (get_or_create_caller db data.caller_phone (some data.caller_name) now).1
        let db2 := (get_or_create_caller db data.caller_phone (some data.caller_name) now).2
        ((create_appointment db2 data (some caller.id) service.duration now).1,
         some (create_appointment db2 data (some caller.id) service.duration now).2)

/-! ### The no-overlap invariant (spec section 3) -/

/-- Two ledger rows are compatible when, if they share a date and neither
is cancelled, their half-open `[start, start+duration)` intervals do not
overlap. -/
def apt_compatible (a b : Appointment) : Prop :=
  a.appointment_date = b.appointment_date →
  a.status ≠ AppointmentStatus.cancelled →
  b.status ≠ AppointmentStatus.cancelled →
  (a.appointment_time + a.duration_minutes ≤ b.appointment_time ∨
   b.appointment_time + b.duration_minutes ≤ a.appointment_time)

instance (a b : Appointment) : Decidable (apt_compatible a b) := by
  unfold apt_compatible; infer_instance

/-- The ledger invariant: every pair of stored appointments is
compatible. -/
def NoOverlap (appts : List Appointment) : Prop :=
  appts.Pairwise apt_compatible

instance (appts : List Appointment) : Decidable (NoOverlap appts) := by
  unfold NoOverlap; infer_instance

/-! ### Helper lemmas -/

/-- Characterisation of the conflict check: it accepts exactly when every
stored appointment of the day that is not cancelled lies entirely before
or entirely after the requested half-open interval. -/
lemma check_eq_true_iff (appts : List Appointment) (date : String) (time duration : Nat) :
    check_time_slot_available appts date time duration = true ↔
      ∀ a ∈ appts, a.appointment_date = date → a.status ≠ AppointmentStatus.cancelled →
        (time + duration ≤ a.appointment_time ∨
         a.appointment_time + a.duration_minutes ≤ time) := by
  unfold check_time_slot_available get_appointments_for_date
  simp only [List.all_eq_true, List.mem_insertionSort, List.mem_filter,
    Bool.and_eq_true, beq_iff_eq, Bool.not_eq_true', beq_eq_false_iff_ne, ne_eq,
    Bool.or_eq_true, decide_eq_true_eq, and_imp]

/-- The slot loop, run with enough fuel, is the 30-minute grid from
`current`, cut down to the starts that fit before closing and pass the
conflict check, rendered through `strftime("%H:%M")`. -/
lemma slotsFrom_eq (appts : List Appointment) (date : String) (dur endT : Nat) :
    ∀ fuel current : Nat, endT < current + 30 * fuel →
      slotsFrom appts date dur endT current fuel =
        (((List.range fuel).map (fun k => current + 30 * k)).filter
            (fun t => decide (t + dur ≤ endT) &&
              check_time_slot_available appts date t dur)).map formatHHMM := by
  intro fuel
  induction fuel with
  | zero =>
      intro current h
      simp [slotsFrom]
  | succ n ih =>
      intro current h
      rw [slotsFrom]
      by_cases hc : current + dur ≤ endT
      · rw [if_pos hc, List.range_succ_eq_map, List.map_cons, List.map_map,
          List.filter_cons]
        have harg : ((fun k => current + 30 * k) ∘ Nat.succ) =
            (fun k => (current + 30) + 30 * k) := by
          funext k
          simp [Function.comp]
          ring
        rw [harg]
        have ih2 := ih (current + 30) (by omega)
        by_cases hava : check_time_slot_available appts date current dur
        · simp [hava, hc, ih2]
        · simp [hava, hc, ih2]
      · rw [if_neg hc]
        symm
        rw [List.map_eq_nil_iff]
        rw [List.filter_eq_nil_iff]
        intro t ht
        simp only [List.mem_map, List.mem_range] at ht
        obtain ⟨k, _, rfl⟩ := ht
        simp only [Bool.and_eq_true, decide_eq_true_eq, not_and]
        intro hle
        omega

/-- `get_or_create_caller` only touches the `callers` table. -/
lemma get_or_create_caller_appointments (db : DB) (p : String) (n : Option String)
    (t : Nat) : ((get_or_create_caller db p n t).2).appointments = db.appointments := by
  unfold get_or_create_caller
  split <;> rfl

/-- `create_appointment` appends exactly the new row to the ledger (the
caller-counter branch only touches the `callers` table). -/
lemma create_appointment_appointments (db : DB) (data : AppointmentCreate)
    (cid : Option Nat) (dur now : Nat) :
    (create_appointment db data cid dur now).1.appointments =
      db.appointments ++ [new_appointment db data cid dur now] := by
  unfold create_appointment bump_caller_appointments
  cases cid with
  | none => rfl
  | some c => by_cases h : c ≠ 0 <;> simp [h]

/-- `update_caller_name` only touches the `callers` table. -/
lemma update_caller_name_appointments (db : DB) (p n : String) (t : Nat) :
    (update_caller_name db p n t).appointments = db.appointments := rfl

/-- Projections distribute over a branch on the database. -/
lemma appointments_ite (c : Prop) [Decidable c] (a b : DB) :
    (if c then a else b).appointments = if c then a.appointments else b.appointments := by
  split <;> rfl

/-- Appending an appointment that passes the conflict check for its own
date, time and duration preserves the no-overlap invariant, provided the
rest already satisfies it. -/
lemma noOverlap_append (appts : List Appointment) (a : Appointment)
    (hinv : NoOverlap appts)
    (hch : check_time_slot_available appts a.appointment_date a.appointment_time
        a.duration_minutes = true) :
    NoOverlap (appts ++ [a]) := by
  unfold NoOverlap at *
  rw [List.pairwise_append]
  refine ⟨hinv, List.pairwise_singleton _ _, ?_⟩
  intro x hx y hy
  rw [List.mem_singleton] at hy
  subst hy
  intro hdate hxs hys
  have hd := (check_eq_true_iff appts _ _ _).1 hch x hx hdate hxs
  tauto

/-! ### Claim theorems -/

/-- Claim C2: for every date, time and duration,
`check_time_slot_available` returns `false` exactly when the requested
half-open interval `[time, time+duration)` overlaps — in the sense of
`NOT(requestedEnd <= existingStart OR requestedStart >= existingEnd)` —
the interval of some appointment stored for that date whose status is
not cancelled; otherwise it returns `true`. -/
theorem check_time_slot_available_false_iff (appts : List Appointment) (date : String)
    (time duration : Nat) :
    check_time_slot_available appts date time duration = false ↔
      ∃ a ∈ appts, a.appointment_date = date ∧
        a.status ≠ AppointmentStatus.cancelled ∧
        ¬(time + duration ≤ a.appointment_time ∨
          a.appointment_time + a.duration_minutes ≤ time) := by
  rw [Bool.eq_false_iff, Ne, check_eq_true_iff]
  push_neg
  simp only [not_or, not_le, exists_prop]

/-- Claim C6: `_should_end_call` is true exactly when the lowered caller
utterance contains one of the caller farewell markers AND the lowered
reply contains one of the reply farewell markers; the three documented
example pairs behave as stated (one-sided farewells continue the
call). -/
theorem should_end_call_iff_both_farewell :
    (∀ u r, should_end_call u r = true ↔
        ((∃ p ∈ farewell_phrases, strContains (lowerStr u) p = true) ∧
         (∃ p ∈ ai_farewell_phrases, strContains (lowerStr r) p = true))) ∧
    should_end_call "Hi there" "Hello! How can I help?" = false ∧
    should_end_call "Thanks, bye" "You\x27re welcome, goodbye!" = true ∧
    should_end_call "Thanks" "What else can I do for you?" = false := by
  refine ⟨fun u r => ?_, by decide, by decide, by decide⟩
  unfold should_end_call
  simp [List.any_eq_true]

/-- Claim C8: `get_available_slots` returns the empty list whenever the
business-hours string is (case-insensitively) "Closed", and likewise —
as a total function, i.e. without raising to the caller — whenever the
string does not parse as an `"open - close"` range of 12-hour times. -/
theorem get_available_slots_fail_soft :
    (∀ (appts : List Appointment) (date : String) (dur : Nat) (wh : String),
        lowerStr wh = "closed" → get_available_slots appts date wh dur = []) ∧
    (∀ (appts : List Appointment) (date : String) (dur : Nat) (wh : String),
        parseWorkingHours wh = none → get_available_slots appts date wh dur = []) := by
  constructor
  · intro appts date dur wh h
    unfold get_available_slots
    simp [h]
  · intro appts date dur wh h
    unfold get_available_slots
    by_cases hc : lowerStr wh = "closed" <;> simp [hc, h]

/-- The scenario fixture of the spec: one non-cancelled appointment
occupying 10:00-10:30 on a Monday. -/
def mondayApt : Appointment :=
  { id := 1, caller_id := none, caller_name := "Asad", caller_phone := "+92300",
    service_name := "Haircut", appointment_date := "2025-01-06",
    appointment_time := 600, duration_minutes := 30,
    status := AppointmentStatus.scheduled, notes := none,
    created_at := 0, reminder_sent := false }

/-- Claim C1: both booking write paths — the orchestrator booking helper
`_attempt_booking` and the direct `/appointments` endpoint — preserve
the no-overlap invariant from any state satisfying it, and both reject
(leaving the database unchanged and reporting failure) any second
appointment whose half-open interval overlaps an existing non-cancelled
appointment of the same date. -/
theorem booking_paths_preserve_no_overlap :
    (∀ (cfg : Config) (db : DB) (ctx : ConvContext) (now : Nat),
        NoOverlap db.appointments →
        NoOverlap (attempt_booking cfg db ctx now).1.appointments) ∧
    (∀ (cfg : Config) (db : DB) (data : AppointmentCreate) (now : Nat),
        NoOverlap db.appointments →
        NoOverlap (create_new_appointment cfg db data now).1.appointments) ∧
    (∀ (cfg : Config) (db : DB) (ctx : ConvContext) (now : Nat)
        (sname date : String) (time : Nat) (service : Service),
        ctx.requested_service = some sname → ctx.requested_date = some date →
        ctx.requested_time = some time →
        find_service cfg.services sname = some service →
        (∃ a ∈ db.appointments, a.appointment_date = date ∧
            a.status ≠ AppointmentStatus.cancelled ∧
            ¬(time + service.duration ≤ a.appointment_time ∨
              a.appointment_time + a.duration_minutes ≤ time)) →
        attempt_booking cfg db ctx now = (db, false)) ∧
    (∀ (cfg : Config) (db : DB) (data : AppointmentCreate) (now : Nat)
        (service : Service),
        find_service cfg.services data.service_name = some service →
        (∃ a ∈ db.appointments, a.appointment_date = data.appointment_date ∧
            a.status ≠ AppointmentStatus.cancelled ∧
            ¬(data.appointment_time + service.duration ≤ a.appointment_time ∨
              a.appointment_time + a.duration_minutes ≤ data.appointment_time)) →
        create_new_appointment cfg db data now = (db, none)) := by
  have hfalse : ∀ (appts : List Appointment) (date : String) (time dur : Nat),
      (∃ a ∈ appts, a.appointment_date = date ∧
          a.status ≠ AppointmentStatus.cancelled ∧
          ¬(time + dur ≤ a.appointment_time ∨
            a.appointment_time + a.duration_minutes ≤ time)) →
      check_time_slot_available appts date time dur = false := by
    intro appts date time dur hov
    rw [Bool.eq_false_iff]
    intro htrue
    obtain ⟨a, ha, hd2, hs2, hno⟩ := hov
    exact hno ((check_eq_true_iff _ _ _ _).1 htrue a ha hd2 hs2)
  refine ⟨?_, ?_, ?_, ?_⟩
  · intro cfg db ctx now hinv
    unfold attempt_booking
    split
    · split
      · exact hinv
      · split
        · exact hinv
        · rename_i hchk
          rw [create_appointment_appointments]
          simp only [Bool.not_eq_true, Bool.not_eq_false] at hchk
          exact noOverlap_append _ _ hinv (by simpa [new_appointment] using hchk)
    · exact hinv
  · intro cfg db data now hinv
    unfold create_new_appointment
    split
    · exact hinv
    · split
      · exact hinv
      · rename_i hchk
        rw [create_appointment_appointments, get_or_create_caller_appointments]
        simp only [Bool.not_eq_true, Bool.not_eq_false] at hchk
        exact noOverlap_append _ _ hinv (by simpa [new_appointment] using hchk)
  · intro cfg db ctx now sname date time service hs hd ht hfs hov
    have hchk := hfalse db.appointments date time service.duration hov
    unfold attempt_booking
    cases hcn : ctx.caller_name with
    | none => simp [hs, hd, ht, hcn]
    | some cname => simp [hs, hd, ht, hcn, hfs, hchk]
  · intro cfg db data now service hfs hov
    have hchk := hfalse db.appointments data.appointment_date data.appointment_time
      service.duration hov
    unfold create_new_appointment
    simp [hfs, hchk]

/-- Configuration fixture for witnesses: one 30-minute service. -/
def cfgW : Config := { services := [{ name := "Haircut", price := 500, duration := 30 }] }

/-- Database fixture for witnesses: empty ledger. -/
def dbW0 : DB :=
  { callers := [], appointments := [], conversation_states := [],
    next_caller_id := 1, next_appointment_id := 1 }

/-- Database fixture for witnesses: the Monday 10:00-10:30 appointment. -/
def dbW1 : DB :=
  { callers := [], appointments := [mondayApt], conversation_states := [],
    next_caller_id := 1, next_appointment_id := 2 }

/-- Context fixture for witnesses: a fully-slotted booking request at the
given start time. -/
def ctxW (t : Nat) : ConvContext :=
  { call_sid := "CA1", caller_phone := "+92300", state := "greeting",
    caller_name := some "Asad", requested_service := some "haircut",
    requested_date := some "2025-01-06", requested_time := some t,
    messages := [], extracted_info := emptyExtracted }

/-- Witness for C1: from the empty (hence invariant-satisfying) ledger a
booking preserves the invariant, and a request overlapping the stored
10:00-10:30 appointment is rejected with the database unchanged. -/
theorem booking_paths_preserve_no_overlap_witness :
    NoOverlap ((attempt_booking cfgW dbW0 (ctxW 600) 99).1.appointments) ∧
    attempt_booking cfgW dbW1 (ctxW 615) 99 = (dbW1, false) := by
  constructor
  · exact booking_paths_preserve_no_overlap.1 cfgW dbW0 (ctxW 600) 99 (by decide)
  · exact booking_paths_preserve_no_overlap.2.2.1 cfgW dbW1 (ctxW 615) 99
      "haircut" "2025-01-06" 615 { name := "Haircut", price := 500, duration := 30 }
      (by decide) (by decide) (by decide) (by decide) (by decide)

/-- Claim C3: for a well-formed open/close range, `get_available_slots`
returns exactly the 30-minute-grid start times from opening that both
fit before closing (`start + duration <= close`) and pass
`check_time_slot_available`, rendered as `"HH:MM"`; the underlying
minute grid is strictly ascending.  On the spec scenario (hours
"9:00 AM - 5:00 PM", an appointment at 10:00-10:30, 30-minute slots)
the result omits "10:00" and contains "09:00", "09:30" and "10:30". -/
theorem get_available_slots_exact :
    (∀ (appts : List Appointment) (date wh : String) (o c dur : Nat),
        lowerStr wh ≠ "closed" → parseWorkingHours wh = some (o, c) →
        get_available_slots appts date wh dur =
          (((List.range (c + 1)).map (fun k => o + 30 * k)).filter
              (fun t => decide (t + dur ≤ c) &&
                check_time_slot_available appts date t dur)).map formatHHMM ∧
        (((List.range (c + 1)).map (fun k => o + 30 * k)).filter
            (fun t => decide (t + dur ≤ c) &&
              check_time_slot_available appts date t dur)).Pairwise (· < ·)) ∧
    ("10:00" ∉ get_available_slots [mondayApt] "2025-01-06" "9:00 AM - 5:00 PM" 30 ∧
     "09:00" ∈ get_available_slots [mondayApt] "2025-01-06" "9:00 AM - 5:00 PM" 30 ∧
     "09:30" ∈ get_available_slots [mondayApt] "2025-01-06" "9:00 AM - 5:00 PM" 30 ∧
     "10:30" ∈ get_available_slots [mondayApt] "2025-01-06" "9:00 AM - 5:00 PM" 30) := by
  constructor
  · intro appts date wh o c dur hcl hp
    constructor
    · unfold get_available_slots
      rw [if_neg hcl, hp]
      exact slotsFrom_eq appts date dur c (c + 1) o (by omega)
    · exact ((List.pairwise_lt_range _).map _ (by intro a b hab; omega)).filter _
  · exact ⟨by decide, by decide, by decide, by decide⟩

/-- Witness for C3: the universal part applied to the scenario inputs,
with both hypotheses discharged by evaluation. -/
theorem get_available_slots_exact_witness :
    get_available_slots [mondayApt] "2025-01-06" "9:00 AM - 5:00 PM" 30 =
      (((List.range 1021).map (fun k => 540 + 30 * k)).filter
          (fun t => decide (t + 30 ≤ 1020) &&
            check_time_slot_available [mondayApt] "2025-01-06" t 30)).map formatHHMM :=
  (get_available_slots_exact.1 [mondayApt] "2025-01-06" "9:00 AM - 5:00 PM" 540 1020 30
    (by decide) (by decide)).1

/-- A truthy optional string is in particular present. -/
lemma truthyS_isSome {o : Option String} (h : truthyS o = true) : o.isSome = true := by
  cases o <;> simp_all [truthyS]

/-- Claim C5: merging an extraction result into the context never
replaces a present slot by `none` (a slot that is `some` stays `some`),
and a `null` extracted field leaves its slot untouched — only non-null
extracted fields are written.  On the documented example, context
`service = "Haircut"` plus extraction `service = null, date =
"2025-01-10"` yields `service = "Haircut", date = "2025-01-10"`. -/
theorem merge_never_unsets :
    (∀ (ctx : ConvContext) (e : Extracted),
        (ctx.caller_name.isSome = true →
          (mergeExtracted ctx e).caller_name.isSome = true) ∧
        (ctx.requested_service.isSome = true →
          (mergeExtracted ctx e).requested_service.isSome = true) ∧
        (ctx.requested_date.isSome = true →
          (mergeExtracted ctx e).requested_date.isSome = true) ∧
        (ctx.requested_time.isSome = true →
          (mergeExtracted ctx e).requested_time.isSome = true)) ∧
    (∀ (ctx : ConvContext) (e : Extracted),
        (e.name = none → (mergeExtracted ctx e).caller_name = ctx.caller_name) ∧
        (e.service = none → (mergeExtracted ctx e).requested_service = ctx.requested_service) ∧
        (e.date = none → (mergeExtracted ctx e).requested_date = ctx.requested_date) ∧
        (e.time = none → (mergeExtracted ctx e).requested_time = ctx.requested_time)) ∧
    (mergeExtracted
        { call_sid := "CA1", caller_phone := "+92300", state := "gathering_info",
          caller_name := none, requested_service := some "Haircut",
          requested_date := none, requested_time := none,
          messages := [], extracted_info := emptyExtracted }
        { name := none, service := none, date := some "2025-01-10", time := none,
          is_confirming := false } =
      { call_sid := "CA1", caller_phone := "+92300", state := "gathering_info",
        caller_name := none, requested_service := some "Haircut",
        requested_date := some "2025-01-10", requested_time := none,
        messages := [], extracted_info := emptyExtracted }) := by
  refine ⟨?_, ?_, by decide⟩
  · intro ctx e
    unfold mergeExtracted
    refine ⟨?_, ?_, ?_, ?_⟩ <;> intro h <;>
      split_ifs with h1 h2 h3 h4 <;>
      simp_all [truthyS_isSome]
  · intro ctx e
    unfold mergeExtracted
    refine ⟨?_, ?_, ?_, ?_⟩ <;> intro h <;>
      split_ifs with h1 h2 h3 h4 <;>
      simp_all [truthyS]

/-- Witness for C5: a present service slot survives a merge whose
extraction carries no service. -/
theorem merge_never_unsets_witness :
    (mergeExtracted (ctxW 600) emptyExtracted).requested_service.isSome = true :=
  ((merge_never_unsets.1 (ctxW 600) emptyExtracted).2.1) (by decide)

/-- Claim C4: the booking attempt of a turn is gated solely by the
completeness test: the gate is the conjunction of the four slot
truthiness tests on the merged context with the extraction result having
`is_confirming = true`; it ignores the stored `state` enum; a turn of
`generate_response` attempts a booking (before the reply is produced, so
also on the provider-failure path) exactly when the gate holds on the
merged turn context, and when the gate is false the appointment ledger
is untouched. -/
theorem booking_gate_spec :
    (∀ (ctx : ConvContext) (e : Extracted),
        should_finalize_booking ctx e =
          (truthyS ctx.caller_name && truthyS ctx.requested_service &&
           truthyS ctx.requested_date && ctx.requested_time.isSome && e.is_confirming)) ∧
    (∀ (ctx : ConvContext) (e : Extracted) (s : String),
        should_finalize_booking { ctx with state := s } e =
          should_finalize_booking ctx e) ∧
    (∀ (cfg : Config) (db : DB) (caller_input call_sid caller_phone : String)
        (e : Extracted) (chat : Except Unit String) (now : Nat),
        (generate_response cfg db caller_input call_sid caller_phone e chat now).2.2 =
          should_finalize_booking
            (merged_turn_context db caller_input call_sid caller_phone e) e) ∧
    (∀ (cfg : Config) (db : DB) (caller_input call_sid caller_phone : String)
        (e : Extracted) (chat : Except Unit String) (now : Nat),
        should_finalize_booking
            (merged_turn_context db caller_input call_sid caller_phone e) e = false →
        (generate_response cfg db caller_input call_sid caller_phone e chat now).1.appointments
          = db.appointments) := by
  refine ⟨fun ctx e => rfl, fun ctx e s => rfl, ?_, ?_⟩
  · intro cfg db ci sid ph e chat now
    unfold generate_response
    cases chat <;> rfl
  · intro cfg db ci sid ph e chat now hg
    unfold generate_response
    simp only [hg]
    cases chat <;> cases e.name <;>
      simp_all [get_or_create_caller_appointments, update_caller_name_appointments,
        appointments_ite]

/-- Witness for C4: a turn whose extraction is not confirming leaves the
ledger unchanged. -/
theorem booking_gate_spec_witness :
    (generate_response cfgW dbW0 "hello" "CA1" "+92300" emptyExtracted
        (Except.ok "hi") 5).1.appointments = dbW0.appointments :=
  booking_gate_spec.2.2.2 cfgW dbW0 "hello" "CA1" "+92300" emptyExtracted
    (Except.ok "hi") 5 (by decide)

/-- Witness for C8 at a closed day and at a malformed hours string. -/
theorem get_available_slots_fail_soft_witness :
    get_available_slots [] "2025-01-06" "CLOSED" 30 = [] ∧
    get_available_slots [] "2025-01-06" "9am to 5pm" 30 = [] :=
  ⟨get_available_slots_fail_soft.1 [] "2025-01-06" 30 "CLOSED" (by decide),
   get_available_slots_fail_soft.2 [] "2025-01-06" 30 "9am to 5pm" (by decide)⟩

/-- `create_appointment` leaves the conversation-state table alone. -/
lemma create_appointment_conversation_states (db : DB) (data : AppointmentCreate)
    (cid : Option Nat) (dur now : Nat) :
    (create_appointment db data cid dur now).1.conversation_states =
      db.conversation_states := by
  unfold create_appointment bump_caller_appointments
  cases cid with
  | none => rfl
  | some c => by_cases h : c ≠ 0 <;> simp [h]

/-- `get_or_create_caller` leaves the conversation-state table alone. -/
lemma get_or_create_caller_conversation_states (db : DB) (p : String)
    (n : Option String) (t : Nat) :
    ((get_or_create_caller db p n t).2).conversation_states = db.conversation_states := by
  unfold get_or_create_caller
  split <;> rfl

/-- `update_caller_name` leaves the conversation-state table alone. -/
lemma update_caller_name_conversation_states (db : DB) (p n : String) (t : Nat) :
    (update_caller_name db p n t).conversation_states = db.conversation_states := rfl

/-- Projections distribute over a branch on the database. -/
lemma conversation_states_ite (c : Prop) [Decidable c] (a b : DB) :
    (if c then a else b).conversation_states =
      if c then a.conversation_states else b.conversation_states := by
  split <;> rfl

/-- A booking attempt never touches the conversation-state table. -/
lemma attempt_booking_conversation_states (cfg : Config) (db : DB)
    (ctx : ConvContext) (now : Nat) :
    (attempt_booking cfg db ctx now).1.conversation_states = db.conversation_states := by
  unfold attempt_booking
  split
  · split
    · rfl
    · split
      · rfl
      · rw [create_appointment_conversation_states]
  · rfl

/-- A caller row fixture with rowid 0, only reachable by construction:
SQLite assigns rowids from 1, but `create_appointment` receives the id
as an argument. -/
def callerZero : Caller :=
  { id := 0, phone_number := "+920", name := none, email := none, notes := none,
    created_at := 0, updated_at := 0, total_calls := 1, total_appointments := 0 }

/-- Database fixture holding only `callerZero`. -/
def dbZero : DB :=
  { callers := [callerZero], appointments := [], conversation_states := [],
    next_caller_id := 1, next_appointment_id := 1 }

/-- A caller row fixture with rowid 1. -/
def callerOne : Caller :=
  { id := 1, phone_number := "+921", name := some "Asad", email := none, notes := none,
    created_at := 0, updated_at := 0, total_calls := 1, total_appointments := 0 }

/-- Database fixture holding only `callerOne`. -/
def dbOne : DB :=
  { callers := [callerOne], appointments := [], conversation_states := [],
    next_caller_id := 2, next_appointment_id := 1 }

/-- Appointment payload fixture. -/
def dataW : AppointmentCreate :=
  { caller_name := "Asad", caller_phone := "+921", service_name := "Haircut",
    appointment_date := "2025-01-06", appointment_time := 600, notes := none }

/-- Counterexample to C7 as stated: `callerId = some 0` is present, yet
the counter of the caller with id 0 stays 0 — the guard `if caller_id:`
is Python truthiness and is false at 0 — so "exactly when callerId is
present, increments the counter of that caller by one" fails at this input
(the callers table is returned entirely unchanged). -/
theorem create_appointment_counter_cex :
    (create_appointment dbZero dataW (some 0) 30 7).1.callers = dbZero.callers ∧
    ¬ ((create_appointment dbZero dataW (some 0) 30 7).1.callers.map
        (fun c => c.total_appointments) = [1]) := by
  decide

/-- Claim C7 (amended): `create_appointment` appends the new appointment
with status `scheduled` and returns its fresh id, leaving the
conversation-state table untouched; the caller counter is incremented by
one on exactly the rows carrying the given id when `callerId` is present
with a nonzero value (the source guard is Python truthiness, and real
SQLite rowids are always >= 1), and the callers table is unchanged when
`callerId` is absent; the insert and the increment belong to one
transaction: the non-failing transaction publishes exactly the
`create_appointment` result, and a failing counter update aborts the
whole transaction, publishing nothing. -/
theorem create_appointment_atomic_spec :
    (∀ (db : DB) (data : AppointmentCreate) (cid_opt : Option Nat) (dur now : Nat),
        (create_appointment db data cid_opt dur now).1.appointments =
          db.appointments ++ [new_appointment db data cid_opt dur now] ∧
        (new_appointment db data cid_opt dur now).status = AppointmentStatus.scheduled ∧
        (create_appointment db data cid_opt dur now).2 = db.next_appointment_id ∧
        (create_appointment db data cid_opt dur now).1.conversation_states =
          db.conversation_states) ∧
    (∀ (db : DB) (data : AppointmentCreate) (dur now : Nat),
        (create_appointment db data none dur now).1.callers = db.callers) ∧
    (∀ (db : DB) (data : AppointmentCreate) (cid dur now : Nat),
        cid ≠ 0 →
        (create_appointment db data (some cid) dur now).1.callers =
          db.callers.map (fun c =>
            if c.id = cid then
              { c with total_appointments := c.total_appointments + 1, updated_at := now }
            else c)) ∧
    (∀ (db : DB) (data : AppointmentCreate) (cid_opt : Option Nat) (dur now : Nat),
        create_appointment_txn db data cid_opt dur now false =
          some (create_appointment db data cid_opt dur now)) ∧
    (∀ (db : DB) (data : AppointmentCreate) (cid dur now : Nat),
        cid ≠ 0 →
        create_appointment_txn db data (some cid) dur now true = none) := by
  refine ⟨?_, ?_, ?_, ?_, ?_⟩
  · intro db data cid_opt dur now
    exact ⟨create_appointment_appointments db data cid_opt dur now, rfl, rfl,
      create_appointment_conversation_states db data cid_opt dur now⟩
  · intro db data dur now
    rfl
  · intro db data cid dur now h
    unfold create_appointment bump_caller_appointments
    simp [h]
  · intro db data cid_opt dur now
    unfold create_appointment create_appointment_txn
    cases cid_opt with
    | none => rfl
    | some c => by_cases h : c ≠ 0 <;> simp [h]
  · intro db data cid dur now h
    unfold create_appointment_txn
    simp [h]

/-- Witness for C7 (amended) at a caller with rowid 1: the counter map
applies and the injected counter-update failure aborts the whole
transaction. -/
theorem create_appointment_atomic_spec_witness :
    (create_appointment dbOne dataW (some 1) 30 7).1.callers =
      dbOne.callers.map (fun c =>
        if c.id = 1 then
          { c with total_appointments := c.total_appointments + 1, updated_at := 7 }
        else c) ∧
    create_appointment_txn dbOne dataW (some 1) 30 7 true = none :=
  ⟨create_appointment_atomic_spec.2.2.1 dbOne dataW 1 30 7 (by decide),
   create_appointment_atomic_spec.2.2.2.2 dbOne dataW 1 30 7 (by decide)⟩

/-- A `put` finds its own row, with `created_at` preserved from the row
it replaced (or initialised to `now` on first write). -/
lemma lookupConv_save (store : List (String × ConvRow)) (call_sid : String)
    (ctx : ConvContext) (now : Nat) :
    lookupConv (save_conversation_state store call_sid ctx now) call_sid =
      some (conv_row_of ctx
        (match lookupConv store call_sid with
          | some r => r.created_at
          | none => now) now) := by
  unfold save_conversation_state lookupConv
  simp [List.find?]

/-- Folding further `put`s over a stored row keeps its `created_at` and
tracks the latest payload. -/
lemma foldl_save_created (call_sid : String) :
    ∀ (rest : List (ConvContext × Nat)) (st : List (String × ConvRow))
      (ctx0 : ConvContext) (c0 u0 : Nat),
      lookupConv st call_sid = some (conv_row_of ctx0 c0 u0) →
      lookupConv
          (rest.foldl (fun s p => save_conversation_state s call_sid p.1 p.2) st)
          call_sid =
        some (conv_row_of (rest.getLastD (ctx0, u0)).1 c0 (rest.getLastD (ctx0, u0)).2) := by
  intro rest
  induction rest with
  | nil =>
      intro st ctx0 c0 u0 h
      simpa using h
  | cons p rest ih =>
      intro st ctx0 c0 u0 h
      rw [List.foldl_cons, List.getLastD_cons]
      apply ih
      rw [lookupConv_save, h]
      rfl

/-- Claim C9: across any sequence of `put`s for the same call id starting
from a store without that id, the stored `created_at` stays the one
established by the first `put`, while every other stored field carries
the payload and timestamp of the latest `put`. -/
theorem save_conversation_state_preserves_created_at :
    ∀ (store : List (String × ConvRow)) (call_sid : String) (ctx1 : ConvContext)
      (t1 : Nat) (rest : List (ConvContext × Nat)),
      lookupConv store call_sid = none →
      lookupConv
          (rest.foldl (fun s p => save_conversation_state s call_sid p.1 p.2)
            (save_conversation_state store call_sid ctx1 t1))
          call_sid =
        some (conv_row_of (rest.getLastD (ctx1, t1)).1 t1 (rest.getLastD (ctx1, t1)).2) := by
  intro store call_sid ctx1 t1 rest h
  apply foldl_save_created
  rw [lookupConv_save, h]

/-- Witness for C9: two `put`s on an empty store keep the first
timestamp as `created_at` while the second payload and timestamp win. -/
theorem save_conversation_state_preserves_created_at_witness :
    lookupConv
        ([((ctxW 600), 5)].foldl
          (fun s p => save_conversation_state s "CA1" p.1 p.2)
          (save_conversation_state [] "CA1" (ctxW 615) 3))
        "CA1" =
      some (conv_row_of (ctxW 600) 3 5) :=
  save_conversation_state_preserves_created_at [] "CA1" (ctxW 615) 3
    [((ctxW 600), 5)] (by decide)

/-- Claim C10: when the reply-generation provider call raises, the turn
returns the fixed apology with `should_end_call = false`, and the stored
conversation state of the call id — indeed the whole
`conversation_states` table — is exactly what it was when the turn
began: the appended caller utterance is never persisted. -/
theorem generate_response_provider_failure_atomic :
    ∀ (cfg : Config) (db : DB) (caller_input call_sid caller_phone : String)
      (e : Extracted) (now : Nat),
      (generate_response cfg db caller_input call_sid caller_phone e
          (Except.error ()) now).2.1 = (apologyText, false) ∧
      (generate_response cfg db caller_input call_sid caller_phone e
          (Except.error ()) now).1.conversation_states = db.conversation_states := by
  intro cfg db ci sid ph e now
  constructor
  · rfl
  · unfold generate_response
    cases e.name <;>
      simp_all [get_or_create_caller_conversation_states,
        update_caller_name_conversation_states, attempt_booking_conversation_states,
        conversation_states_ite]

end Receptrix
